import Mathlib

/-!
Shallow embedding of `src/hedgeye_scraper.py` (branch `monitor_feeds_async`,
lines 154-246, together with `login`, lines 53-86).

The mutable program state of one loop iteration is the tuple of locals
`market_is_open`, `logged_in`, `first_time_ever`, the local list `sessions`
and the module-level dict `last_alert_details` (line 40).  Outbound effects
(login attempts, feed fetches, the two sink calls, the overnight sleep) are
recorded as an event trace.  Non-deterministic outside interactions (whether
a login attempt navigates away from the login page, what a feed fetch
returns, whether a sink call raises) are supplied as oracles.
-/

namespace HedgeyeScraper

/-- One alert record as returned by `fetch_alert_details` (lines 146-151):
the four string fields of the returned dict. -/
structure AlertDetails where
  title : String
  price : String
  created_at : String
  current_time : String
deriving DecidableEq, Repr

/-- The module-level dict `last_alert_details` (line 40) after it has been
assigned (lines 234-237) holds exactly a title and a created_at; before the
first assignment it is the empty dict, modelled as `none`. -/
structure LastAlert where
  title : String
  created_at : String
deriving DecidableEq, Repr

/-- Line 201, `last_alert_details.get("title")`: `none` on the empty dict. -/
def lastTitleOf (st : Option LastAlert) : Option String :=
  st.map (fun a => a.title)

/-- Payload of `send_ws_message` (lines 223-231). -/
structure WsPayload where
  name : String
  type : String
  ticker : String
  sender : String
deriving DecidableEq, Repr

/-- Outbound effects of one loop iteration, in program order. -/
inductive Event where
  /-- one credential submission for account `acct`, attempt number `attempt`
  (the body of the `while` loop of `login`, lines 59-81) -/
  | login (acct : Nat) (attempt : Nat)
  /-- the `log_message` of line 84 after the retry budget is exhausted -/
  | loginFailedLog (acct : Nat)
  /-- one call of `fetch_alert_details(session)` (line 195) -/
  | fetch (sid : Nat)
  /-- one call of `send_telegram_message` (lines 203-207) -/
  | telegram (msg : String)
  /-- one call of `send_ws_message` (lines 223-231) -/
  | ws (p : WsPayload)
  /-- the call of `sleep_until_market_open()` (line 246) -/
  | sleepUntilOpen
deriving DecidableEq, Repr

/-! Direction classification (lines 209-217).

`signal_type = "Buy" if "buy" in title.lower() else ("Sell" if "sell" in
title.lower() else "None")`.  Python's `in` on strings is contiguous
substring containment; `str.lower` agrees with `Char.toLower` on the ASCII
titles this scraper handles. -/

/-- Python `needle in hay` on strings: `needle` occurs as a contiguous
substring of `hay`. -/
def containsSub (needle : List Char) : List Char → Bool
  | [] => needle.isEmpty
  | c :: rest => needle.isPrefixOf (c :: rest) || containsSub needle rest

/-- Lines 211 and 214, `alert_details["title"].lower()`, as a character list:
`str.lower` lowers each character (ASCII here). -/
def lowerData (s : String) : List Char :=
  s.data.map Char.toLower

/-- Lines 209-217: the conditional expression computing `signal_type`. -/
def signalType (title : String) : String :=
  if containsSub "buy".data (lowerData title) then "Buy"
  else if containsSub "sell".data (lowerData title) then "Sell"
  else "None"

/-! Ticker extraction (lines 218-221).

`re.search(r"\b([A-Z]{1,5})\b(?=\s*\$)", title)`; the ticker is
`match.group(0)` or `"-"` when there is no match.

`re.search` tries start positions left to right.  At start position `i`
the leading `\b` forces `s[i-1]` to be a non-word character (or `i = 0`),
since `[A-Z]` requires `s[i]` to be a word character.  The greedy
`[A-Z]{1,5}` followed by `\b` can only succeed by consuming the whole
uppercase run starting at `i`: stopping earlier leaves an uppercase (hence
word) character right after the match, killing the boundary.  So position
`i` matches iff the maximal uppercase run at `i` has length `1..5`, is
preceded by a non-word character (or start) and followed by a non-word
character (or end), and the lookahead `\s*\$` holds after it. -/

/-- ASCII uppercase letter, the regex class `[A-Z]`. -/
def isUpperCh (c : Char) : Bool :=
  'A' ≤ c && c ≤ 'Z'

/-- the regex class `\w` restricted to ASCII: letters, digits, underscore. -/
def isWordCh (c : Char) : Bool :=
  isUpperCh c || ('a' ≤ c && c ≤ 'z') || ('0' ≤ c && c ≤ '9') || c == '_'

/-- the regex class `\s` restricted to ASCII. -/
def isSpaceCh (c : Char) : Bool :=
  c == ' ' || c == '\t' || c == '\n' || c == '\r' ||
    c == Char.ofNat 11 || c == Char.ofNat 12

/-- Length of the maximal run of uppercase letters at the head. -/
def upperRunLen : List Char → Nat
  | [] => 0
  | c :: rest => if isUpperCh c then upperRunLen rest + 1 else 0

/-- The lookahead `(?=\s*\$)`: skipping whitespace, the next character is a
dollar sign. -/
def dollarAfterSpaces : List Char → Bool
  | [] => false
  | c :: rest => if isSpaceCh c then dollarAfterSpaces rest else c == '$'

/-- The trailing `\b` after the uppercase run: end of string or a non-word
character. -/
def wordBoundaryAfter : List Char → Bool
  | [] => true
  | c :: _ => !isWordCh c

/-- The left-to-right scan of `re.search` over the title, carrying whether
the previous character is a word character (`prevW`, false at the start of
the string). -/
def tickerScan : Bool → List Char → Option (List Char)
  | _, [] => none
  | prevW, c :: rest =>
    let l := upperRunLen (c :: rest)
    if !prevW && decide (1 ≤ l) && decide (l ≤ 5)
        && wordBoundaryAfter ((c :: rest).drop l)
        && dollarAfterSpaces ((c :: rest).drop l)
    then some ((c :: rest).take l)
    else tickerScan (isWordCh c) rest

/-- Lines 218-221: `ticker_match.group(0) if ticker_match else "-"`. -/
def extractTicker (title : String) : String :=
  match tickerScan false title.data with
  | some t => String.mk t
  | none => "-"

/-- Modelled from the spec's words for ticker extraction (spec §4.4): "the
first run of 1–5 uppercase letters immediately followed (after optional
whitespace) by a dollar sign, scanned left-to-right in the title; sentinel
"-" when no such token exists".  A run is a maximal block of uppercase
letters: its predecessor (if any) is not an uppercase letter, and it
extends as far right as the uppercase letters do. -/
def extractTickerSpec (title : String) : String :=
  let s := title.data
  match (List.range s.length).findSome? (fun i =>
    let l := upperRunLen (s.drop i)
    if (i == 0 || !isUpperCh (s.getD (i - 1) ' '))
        && decide (1 ≤ l) && decide (l ≤ 5)
        && dollarAfterSpaces (s.drop (i + l))
    then some ((s.drop i).take l) else none) with
  | some t => String.mk t
  | none => "-"

/-- The candidate test of the regex at start index `i` of `s`, where
`prevW` tells whether the character before index 0 of `s` would be a word
character (false for a whole string). -/
def candAt (prevW : Bool) (s : List Char) (i : Nat) : Option (List Char) :=
  let l := upperRunLen (s.drop i)
  if (if i = 0 then !prevW else !isWordCh (s.getD (i - 1) ' '))
      && decide (1 ≤ l) && decide (l ≤ 5)
      && wordBoundaryAfter (s.drop (i + l))
      && dollarAfterSpaces (s.drop (i + l))
  then some ((s.drop i).take l) else none

/-- Ticker extraction as the amended claim words it: the first left-to-right
word-boundary-delimited run of 1–5 uppercase letters (preceded and followed
by a non-word character or the string edge) that is followed, after optional
whitespace, by a dollar sign; sentinel "-" otherwise. -/
def extractTickerAmended (title : String) : String :=
  match (List.range title.data.length).findSome? (candAt false title.data) with
  | some t => String.mk t
  | none => "-"

/-! Per-session processing in the MONITORING branch (lines 194-238).

For each session the loop body calls `fetch_alert_details` (which may
return a record, return `None`, or raise), and on a fresh title first
awaits `send_telegram_message`, then awaits `send_ws_message`, and only
then assigns `last_alert_details` (line 234).  An exception raised anywhere
in the body propagates to the `try`/`except` at lines 193/240. -/

/-- What `fetch_alert_details(session)` did on one call. -/
inductive FetchRes where
  /-- the call raised (e.g. the `session.get` of line 114 failed) -/
  | raise
  /-- the call returned (`None` or a record) -/
  | extracted (ad : Option AlertDetails)
deriving DecidableEq, Repr

/-- Outside-world outcome of processing one session: the fetch result and
whether each sink call returns normally (`true`) or raises (`false`). -/
structure SessionOutcome where
  fetch : FetchRes
  tgOk : Bool
  wsOk : Bool
deriving DecidableEq, Repr

/-- Result of the loop body for one session: the value of
`last_alert_details` afterwards, whether an exception escaped the body, and
the outbound calls made. -/
structure StepResult where
  state : Option LastAlert
  err : Bool
  events : List Event
deriving DecidableEq, Repr

/-- The telegram message `message` of line 202. -/
def composeMessage (ad : AlertDetails) : String :=
  "Title: " ++ ad.title ++ "\nPrice: " ++ ad.price ++
    "\nCreated At: " ++ ad.created_at ++ "\nCurrent Time: " ++ ad.current_time

/-- The `send_ws_message` payload of lines 224-229. -/
def mkPayload (ad : AlertDetails) : WsPayload :=
  { name := "Hedgeye", type := signalType ad.title,
    ticker := extractTicker ad.title, sender := "hedgeye" }

/-- Lines 194-238, one session `sid` of the `for` loop.  When a sink call
raises, the later statements of the body (including the `last_alert_details`
assignment of line 234) do not run. -/
def processSession (st : Option LastAlert) (sid : Nat) (o : SessionOutcome) :
    StepResult :=
  match o.fetch with
  | .raise => ⟨st, true, [Event.fetch sid]⟩
  | .extracted none => ⟨st, false, [Event.fetch sid]⟩
  | .extracted (some ad) =>
    if lastTitleOf st != some ad.title then
      if o.tgOk then
        if o.wsOk then
          ⟨some ⟨ad.title, ad.created_at⟩, false,
            [Event.fetch sid, Event.telegram (composeMessage ad),
              Event.ws (mkPayload ad)]⟩
        else
          ⟨st, true,
            [Event.fetch sid, Event.telegram (composeMessage ad),
              Event.ws (mkPayload ad)]⟩
      else
        ⟨st, true, [Event.fetch sid, Event.telegram (composeMessage ad)]⟩
    else ⟨st, false, [Event.fetch sid]⟩

/-- The whole `for session in sessions` loop under the `try` of line 193:
sessions are processed in order until the first exception, which skips the
rest of the pass (the `except` of line 240 only logs). -/
def monitorPass (st : Option LastAlert) :
    List (Nat × SessionOutcome) → Option LastAlert × Bool × List Event
  | [] => (st, false, [])
  | (sid, o) :: rest =>
    let r := processSession st sid o
    if r.err then (r.state, true, r.events)
    else
      let rec2 := monitorPass r.state rest
      (rec2.1, rec2.2.1, r.events ++ rec2.2.2)

/-! Login with retries (lines 53-86) and the session pool (lines 173-184).

`login` submits credentials while still on the login page and
`retry_count < 5`; the attempt oracle says whether attempt `i` navigates
away.  In `monitor_feeds_async` the return value of `login` is ignored
(line 179) and a session is appended for every account (line 183). -/

/-- Attempts of the `while` loop of lines 59-81, at most `fuel` more,
current attempt index `i`: the list of attempt indices made and whether the
login succeeded (left the login page). -/
def loginRun (oracle : Nat → Bool) : Nat → Nat → List Nat × Bool
  | 0, _ => ([], false)
  | fuel + 1, i =>
    if oracle i then ([i], true)
    else
      let r := loginRun oracle fuel (i + 1)
      (i :: r.1, r.2)

/-- Lines 53-86, `login(driver, email, password)`: up to 5 attempts,
returns the attempt indices made and the success flag of lines 83-86. -/
def login (oracle : Nat → Bool) : List Nat × Bool :=
  loginRun oracle 5 0

/-- The `max_time` of the `random_scroll` before attempt `retry_count`
(line 66): `10 + retry_count * 5` seconds of jittered scrolling. -/
def thinkTimeMax (retry_count : Nat) : Nat :=
  10 + retry_count * 5

/-- Events of authenticating one account: one `Event.login` per attempt,
plus the failure log of line 84 when the budget is exhausted. -/
def authAccount (acct : Nat) (oracle : Nat → Bool) : List Event :=
  (login oracle).1.map (Event.login acct) ++
    (if (login oracle).2 then [] else [Event.loginFailedLog acct])

/-- Lines 173-184: the whole `for i, (email, password) in enumerate(accounts)`
loop.  A session (numbered by account index) is appended for every account,
whether or not its `login` succeeded — the return value of line 179 is
discarded. -/
def authenticateAll (n : Nat) (oracle : Nat → Nat → Bool) :
    List Nat × List Event :=
  (List.range n, (List.range n).map (fun a => authAccount a (oracle a)) |>.flatten)

/-- Modelled from the spec's words (claim C8): "the resulting session pool
contains sessions only for the accounts whose authentication succeeded". -/
def authenticateAllSpec (n : Nat) (oracle : Nat → Nat → Bool) : List Nat :=
  (List.range n).filter (fun a => (login (oracle a)).2)

/-! The outer loop (lines 154-246). -/

/-- The three phases of spec §4.1. -/
inductive Phase where
  | PRE_OPEN_LOGIN
  | OPEN
  | CLOSED
deriving DecidableEq, Repr

/-- The phase classifier implemented by the branch conditions of lines
166-167, 189 and 243 (with the cold-start disjunct `first_time_ever` of
line 168 stripped out): instants are compared in the order
pre-market-login, open, close. -/
def currentPhase (preT openT closeT now : Int) : Phase :=
  if preT ≤ now ∧ now < openT then Phase.PRE_OPEN_LOGIN
  else if openT ≤ now ∧ now ≤ closeT then Phase.OPEN
  else Phase.CLOSED

/-- The mutable state of `monitor_feeds_async` across iterations: the
locals of lines 156-158, the `sessions` list of line 173 (session numbered
by account index), and the global `last_alert_details` of line 40. -/
structure LoopState where
  market_is_open : Bool
  logged_in : Bool
  first_time_ever : Bool
  sessions : List Nat
  last_alert_details : Option LastAlert
deriving DecidableEq, Repr

/-- State at process start: lines 40 and 156-158 (`sessions` not yet
assigned, modelled empty). -/
def initState : LoopState :=
  ⟨false, false, true, [], none⟩

/-- One iteration of the `while True` loop (lines 160-246).  `n` is the
number of configured accounts, `loginOracle a i` says whether attempt `i`
for account `a` leaves the login page, and `outcomes s` is the outside
world's behaviour when session `s` is polled in this iteration. -/
def loopIter (st : LoopState) (preT openT closeT now : Int) (n : Nat)
    (loginOracle : Nat → Nat → Bool) (outcomes : Nat → SessionOutcome) :
    LoopState × List Event :=
  if (preT ≤ now ∧ now < openT) ∨ st.first_time_ever = true then
    let st1 := { st with first_time_ever := false }
    if st1.logged_in then (st1, [])
    else
      let a := authenticateAll n loginOracle
      ({ st1 with sessions := a.1, logged_in := true }, a.2)
  else if openT ≤ now ∧ now ≤ closeT then
    let st1 := { st with market_is_open := true }
    let r := monitorPass st1.last_alert_details
      (st1.sessions.map (fun s => (s, outcomes s)))
    ({ st1 with last_alert_details := r.1 }, r.2.2)
  else
    ({ st with logged_in := false, market_is_open := false },
      [Event.sleepUntilOpen])

/-! Theorems. -/

/-- The scan `containsSub` decides contiguous-substring containment, Python's
`needle in hay`. -/
theorem containsSub_iff_infix (needle hay : List Char) :
    containsSub needle hay = true ↔ needle.IsInfix hay := by
  induction hay with
  | nil => simp [containsSub, List.isEmpty_iff, List.infix_nil]
  | cons c rest ih =>
    simp only [containsSub, Bool.or_eq_true, List.isPrefixOf_iff_prefix, ih,
      List.infix_cons_iff]

/-- Claim C7: phase classification is a total function of the instant:
PRE_OPEN_LOGIN is exactly `[preMarketLoginAt, marketOpenAt)`, OPEN is
exactly `[marketOpenAt, marketCloseAt]`, CLOSED is everything else, and the
three cases are mutually exclusive and exhaustive. -/
theorem claim7_phase_partition (preT openT closeT now : Int) :
    (currentPhase preT openT closeT now = Phase.PRE_OPEN_LOGIN ↔
      preT ≤ now ∧ now < openT) ∧
    (currentPhase preT openT closeT now = Phase.OPEN ↔
      openT ≤ now ∧ now ≤ closeT) ∧
    (currentPhase preT openT closeT now = Phase.CLOSED ↔
      ¬(preT ≤ now ∧ now < openT) ∧ ¬(openT ≤ now ∧ now ≤ closeT)) := by
  unfold currentPhase
  by_cases h1 : preT ≤ now ∧ now < openT
  · have h2 : ¬(openT ≤ now ∧ now ≤ closeT) := by omega
    simp [h1, h2]
  · by_cases h2 : openT ≤ now ∧ now ≤ closeT
    · simp [h1, h2]
    · simp [h1, h2]

/-- Claim C6: the direction is Buy iff the lowercased title contains "buy";
Sell iff it does not contain "buy" but contains "sell"; None otherwise —
so "buy" is checked first and a title containing both classifies as Buy. -/
theorem claim6_direction_classification :
    (∀ title : String,
      (signalType title = "Buy" ↔ List.IsInfix "buy".data (lowerData title)) ∧
      (signalType title = "Sell" ↔
        ¬ List.IsInfix "buy".data (lowerData title) ∧
          List.IsInfix "sell".data (lowerData title)) ∧
      (signalType title = "None" ↔
        ¬ List.IsInfix "buy".data (lowerData title) ∧
          ¬ List.IsInfix "sell".data (lowerData title))) ∧
    signalType "buy and sell signal $X" = "Buy" := by
  refine ⟨fun title => ?_, by decide⟩
  have hbuy := containsSub_iff_infix "buy".data (lowerData title)
  have hsell := containsSub_iff_infix "sell".data (lowerData title)
  unfold signalType
  by_cases hb : containsSub "buy".data (lowerData title) = true <;>
    by_cases hs : containsSub "sell".data (lowerData title) = true <;>
    simp [hb, hs] at hbuy hsell <;>
    simp [hb, hs, hbuy, hsell]

/-- Claim C1: in the MONITORING body, for a non-null extracted record (and
exception-free sinks) both sinks are invoked iff the record's title differs
from the stored last-seen title (or no last-seen exists, `none`); the same
title twice in a row dispatches on the first feed only, and two distinct
titles dispatch both times. -/
theorem claim1_dispatch_iff_new_title :
    (∀ (st : Option LastAlert) (sid : Nat) (ad : AlertDetails),
      (processSession st sid ⟨FetchRes.extracted (some ad), true, true⟩).events =
        if lastTitleOf st ≠ some ad.title then
          [Event.fetch sid, Event.telegram (composeMessage ad),
            Event.ws (mkPayload ad)]
        else [Event.fetch sid]) ∧
    (∀ (sid1 sid2 : Nat) (ad : AlertDetails),
      (processSession none sid1 ⟨FetchRes.extracted (some ad), true, true⟩).events =
        [Event.fetch sid1, Event.telegram (composeMessage ad),
          Event.ws (mkPayload ad)] ∧
      (processSession
          (processSession none sid1 ⟨FetchRes.extracted (some ad), true, true⟩).state
          sid2 ⟨FetchRes.extracted (some ad), true, true⟩).events =
        [Event.fetch sid2]) ∧
    (∀ (sid1 sid2 : Nat) (ad1 ad2 : AlertDetails), ad1.title ≠ ad2.title →
      (processSession none sid1 ⟨FetchRes.extracted (some ad1), true, true⟩).events =
        [Event.fetch sid1, Event.telegram (composeMessage ad1),
          Event.ws (mkPayload ad1)] ∧
      (processSession
          (processSession none sid1 ⟨FetchRes.extracted (some ad1), true, true⟩).state
          sid2 ⟨FetchRes.extracted (some ad2), true, true⟩).events =
        [Event.fetch sid2, Event.telegram (composeMessage ad2),
          Event.ws (mkPayload ad2)]) := by
  refine ⟨fun st sid ad => ?_, fun sid1 sid2 ad => ?_, fun sid1 sid2 ad1 ad2 h => ?_⟩
  · by_cases h : lastTitleOf st = some ad.title
    · simp [processSession, h]
    · simp [processSession, h, bne_iff_ne.mpr h]
  · constructor
    · simp [processSession, lastTitleOf]
    · simp [processSession, lastTitleOf]
  · constructor
    · simp [processSession, lastTitleOf]
    · simp [processSession, lastTitleOf, h, Ne.symm h]

/-- Claim C1 witness: the distinct-titles conjunct at concrete records. -/
theorem claim1_dispatch_iff_new_title_witness :
    (processSession none 0
        ⟨FetchRes.extracted (some ⟨"T1", "p", "c", "n"⟩), true, true⟩).events =
      [Event.fetch 0, Event.telegram (composeMessage ⟨"T1", "p", "c", "n"⟩),
        Event.ws (mkPayload ⟨"T1", "p", "c", "n"⟩)] ∧
    (processSession
        (processSession none 0
          ⟨FetchRes.extracted (some ⟨"T1", "p", "c", "n"⟩), true, true⟩).state
        1 ⟨FetchRes.extracted (some ⟨"T2", "p", "c", "n"⟩), true, true⟩).events =
      [Event.fetch 1, Event.telegram (composeMessage ⟨"T2", "p", "c", "n"⟩),
        Event.ws (mkPayload ⟨"T2", "p", "c", "n"⟩)] :=
  claim1_dispatch_iff_new_title.2.2 0 1 ⟨"T1", "p", "c", "n"⟩ ⟨"T2", "p", "c", "n"⟩
    (by decide)

/-- Claim C3 counterexample: with the telegram sink raising, the extracted
alert (fresh title, empty last-seen) is NOT marked seen — the state stays
`none` instead of being overwritten with the alert's title — refuting "a
sink failure does not roll back the seen mark". -/
theorem claim3_counterexample :
    (processSession none 0
        ⟨FetchRes.extracted (some ⟨"Sell TSLA $700", "700", "d", "n"⟩),
          false, true⟩).state = none ∧
    (processSession none 0
        ⟨FetchRes.extracted (some ⟨"Sell TSLA $700", "700", "d", "n"⟩),
          false, true⟩).events =
      [Event.fetch 0,
        Event.telegram (composeMessage ⟨"Sell TSLA $700", "700", "d", "n"⟩)] := by
  decide

/-- Claim C3 amended: `last_alert_details` is assigned only after BOTH sink
calls return normally; a failure raised by either sink skips the seen-mark
update, so the same alert IS dispatched again on the next poll. -/
theorem claim3_amended_seen_mark_after_sinks :
    (∀ (st : Option LastAlert) (sid : Nat) (ad : AlertDetails) (wsOk : Bool),
      (processSession st sid
        ⟨FetchRes.extracted (some ad), false, wsOk⟩).state = st) ∧
    (∀ (st : Option LastAlert) (sid : Nat) (ad : AlertDetails),
      (processSession st sid
        ⟨FetchRes.extracted (some ad), true, false⟩).state = st) ∧
    (∀ (sid1 sid2 : Nat) (ad : AlertDetails),
      Event.ws (mkPayload ad) ∈
        (processSession
          (processSession none sid1
            ⟨FetchRes.extracted (some ad), true, false⟩).state
          sid2 ⟨FetchRes.extracted (some ad), true, true⟩).events) := by
  refine ⟨fun st sid ad wsOk => ?_, fun st sid ad => ?_, fun sid1 sid2 ad => ?_⟩
  · by_cases h : lastTitleOf st = some ad.title
    · simp [processSession, h]
    · simp [processSession, h, bne_iff_ne.mpr h]
  · by_cases h : lastTitleOf st = some ad.title
    · simp [processSession, h]
    · simp [processSession, h, bne_iff_ne.mpr h]
  · simp [processSession, lastTitleOf]

/-- Claim C4 counterexample: with the telegram sink raising on a fresh
alert, the websocket sink is never invoked in that dispatch — its event is
absent — refuting "a failure raised by one sink does not prevent the other
sink's call". -/
theorem claim4_counterexample :
    (processSession none 0
        ⟨FetchRes.extracted (some ⟨"Buy AAPL $150", "150", "d", "n"⟩),
          false, true⟩).events =
      [Event.fetch 0,
        Event.telegram (composeMessage ⟨"Buy AAPL $150", "150", "d", "n"⟩)] ∧
    Event.ws (mkPayload ⟨"Buy AAPL $150", "150", "d", "n"⟩) ∉
      (processSession none 0
        ⟨FetchRes.extracted (some ⟨"Buy AAPL $150", "150", "d", "n"⟩),
          false, true⟩).events := by
  decide

/-- Claim C4 amended: the two sink calls are made sequentially, telegram
first, then websocket: a telegram failure prevents the websocket call of
the same dispatch, while a websocket failure occurs only after the telegram
call has already completed. -/
theorem claim4_amended_sequential_sinks :
    ∀ (st : Option LastAlert) (sid : Nat) (ad : AlertDetails) (wsOk : Bool),
      lastTitleOf st ≠ some ad.title →
      (processSession st sid
          ⟨FetchRes.extracted (some ad), false, wsOk⟩).events =
        [Event.fetch sid, Event.telegram (composeMessage ad)] ∧
      (processSession st sid
          ⟨FetchRes.extracted (some ad), true, wsOk⟩).events =
        [Event.fetch sid, Event.telegram (composeMessage ad),
          Event.ws (mkPayload ad)] := by
  intro st sid ad wsOk h
  cases wsOk <;> simp [processSession, bne_iff_ne.mpr h]

/-- Claim C4 witness: the amended sequencing at a concrete record. -/
theorem claim4_amended_sequential_sinks_witness :
    (processSession none 0
        ⟨FetchRes.extracted (some ⟨"T", "p", "c", "n"⟩), false, true⟩).events =
      [Event.fetch 0, Event.telegram (composeMessage ⟨"T", "p", "c", "n"⟩)] :=
  (claim4_amended_sequential_sinks none 0 ⟨"T", "p", "c", "n"⟩ true (by decide)).1

/-- Shared concrete inputs for the loop-level counterexamples: an
immediately-successful login oracle and a feed that always serves the same
alert record. -/
def cexOracle : Nat → Nat → Bool := fun _ _ => true

/-- Feed outcome serving the alert "Buy AAPL $150" with working sinks. -/
def cexOutcome : Nat → SessionOutcome :=
  fun _ => ⟨FetchRes.extracted (some ⟨"Buy AAPL $150", "150", "d1", "n1"⟩),
    true, true⟩

/-- End of day 1: state after a dispatch of "Buy AAPL $150", then the
CLOSED-phase iteration (schedule 0/10/20, now = 100). -/
def cexAfterClose : LoopState :=
  (loopIter ⟨true, true, false, [0], some ⟨"Buy AAPL $150", "d1"⟩⟩
    0 10 20 100 1 cexOracle cexOutcome).1

/-- Day 2 pre-open iteration (schedule 200/210/220, now = 205). -/
def cexAfterPreOpen : LoopState :=
  (loopIter cexAfterClose 200 210 220 205 1 cexOracle cexOutcome).1

/-- Claim C2 counterexample: the overnight CLOSED iteration and the next
day's PRE_OPEN_LOGIN iteration both leave `last_alert_details` holding the
previous day's title — it is never reset — and the first alert of the new
day, repeating that title, is NOT dispatched (only the fetch happens). -/
theorem claim2_counterexample :
    currentPhase 0 10 20 100 = Phase.CLOSED ∧
    cexAfterClose.last_alert_details = some ⟨"Buy AAPL $150", "d1"⟩ ∧
    currentPhase 200 210 220 205 = Phase.PRE_OPEN_LOGIN ∧
    cexAfterPreOpen.last_alert_details = some ⟨"Buy AAPL $150", "d1"⟩ ∧
    currentPhase 200 210 220 215 = Phase.OPEN ∧
    (loopIter cexAfterPreOpen 200 210 220 215 1 cexOracle cexOutcome).2 =
      [Event.fetch 0] := by
  decide

/-- Claim C2 amended: the transition out of trading hours resets only the
`logged_in` and `market_is_open` flags; `last_alert_details` is never
cleared — both the CLOSED iteration and the pre-open login iteration leave
it unchanged, so it persists across trading days. -/
theorem claim2_amended_last_seen_persists :
    (∀ (st : LoopState) (preT openT closeT now : Int) (n : Nat)
        (lo : Nat → Nat → Bool) (fo : Nat → SessionOutcome),
      st.first_time_ever = false → ¬(preT ≤ now ∧ now < openT) →
      ¬(openT ≤ now ∧ now ≤ closeT) →
      (loopIter st preT openT closeT now n lo fo).1.last_alert_details =
          st.last_alert_details ∧
        (loopIter st preT openT closeT now n lo fo).1.logged_in = false ∧
        (loopIter st preT openT closeT now n lo fo).1.market_is_open = false ∧
        (loopIter st preT openT closeT now n lo fo).2 =
          [Event.sleepUntilOpen]) ∧
    (∀ (st : LoopState) (preT openT closeT now : Int) (n : Nat)
        (lo : Nat → Nat → Bool) (fo : Nat → SessionOutcome),
      (preT ≤ now ∧ now < openT) ∨ st.first_time_ever = true →
      (loopIter st preT openT closeT now n lo fo).1.last_alert_details =
        st.last_alert_details) := by
  constructor
  · intro st preT openT closeT now n lo fo hf h1 h2
    simp [loopIter, h1, h2, hf]
  · intro st preT openT closeT now n lo fo h
    by_cases hl : st.logged_in <;> simp [loopIter, h, hl]

/-- Claim C2 amended witness: the CLOSED-transition conjunct at the
concrete day-1 state. -/
theorem claim2_amended_last_seen_persists_witness :
    (loopIter ⟨true, true, false, [0], some ⟨"Buy AAPL $150", "d1"⟩⟩
        0 10 20 100 1 cexOracle cexOutcome).1.last_alert_details =
      some ⟨"Buy AAPL $150", "d1"⟩ :=
  (claim2_amended_last_seen_persists.1
    ⟨true, true, false, [0], some ⟨"Buy AAPL $150", "d1"⟩⟩
    0 10 20 100 1 cexOracle cexOutcome rfl (by decide) (by decide)).1

/-- Claim C9 counterexample: on cold start with `now` already past
`marketCloseAt` (schedule 9/10/11, now = 12), the first iteration performs
the forced login but NO polling: the event trace is a single login attempt
and contains no fetch — refuting "authentication and polling are forced". -/
theorem claim9_counterexample :
    initState.first_time_ever = true ∧
    currentPhase 9 10 11 12 = Phase.CLOSED ∧
    (loopIter initState 9 10 11 12 1 cexOracle cexOutcome).2 =
      [Event.login 0 0] ∧
    Event.fetch 0 ∉ (loopIter initState 9 10 11 12 1 cexOracle cexOutcome).2 := by
  decide

/-- Claim C9 amended: on cold start the first iteration is forced into the
login branch regardless of phase (authenticating all accounts, with no
polling in that iteration), `first_time_ever` is false after every
iteration (so the forcing happens at most once per process lifetime), and
later iterations follow the phase rules (outside both windows the loop
only waits for the next market open). -/
theorem claim9_amended_forced_login_once :
    (∀ (st : LoopState) (preT openT closeT now : Int) (n : Nat)
        (lo : Nat → Nat → Bool) (fo : Nat → SessionOutcome),
      st.first_time_ever = true → st.logged_in = false →
      (loopIter st preT openT closeT now n lo fo).2 =
          (authenticateAll n lo).2 ∧
        (loopIter st preT openT closeT now n lo fo).1.logged_in = true ∧
        (loopIter st preT openT closeT now n lo fo).1.first_time_ever =
          false) ∧
    (∀ (n : Nat) (lo : Nat → Nat → Bool) (sid : Nat),
      Event.fetch sid ∉ (authenticateAll n lo).2) ∧
    (∀ (st : LoopState) (preT openT closeT now : Int) (n : Nat)
        (lo : Nat → Nat → Bool) (fo : Nat → SessionOutcome),
      (loopIter st preT openT closeT now n lo fo).1.first_time_ever = false) ∧
    (∀ (st : LoopState) (preT openT closeT now : Int) (n : Nat)
        (lo : Nat → Nat → Bool) (fo : Nat → SessionOutcome),
      st.first_time_ever = false → ¬(preT ≤ now ∧ now < openT) →
      ¬(openT ≤ now ∧ now ≤ closeT) →
      (loopIter st preT openT closeT now n lo fo).2 =
        [Event.sleepUntilOpen]) := by
  refine ⟨?_, ?_, ?_, ?_⟩
  · intro st preT openT closeT now n lo fo hf hl
    simp [loopIter, hf, hl]
  · intro n lo sid
    simp only [authenticateAll, List.mem_flatten, List.mem_map]
    rintro ⟨l, ⟨a, _, rfl⟩, hmem⟩
    simp only [authAccount, List.mem_append, List.mem_map] at hmem
    rcases hmem with ⟨x, _, hx⟩ | hx
    · exact Event.noConfusion hx
    · by_cases hs : (login (lo a)).2 <;> simp [hs] at hx
  · intro st preT openT closeT now n lo fo
    by_cases hc1 : preT ≤ now ∧ now < openT
    · by_cases hl : st.logged_in <;> simp [loopIter, hc1, hl]
    · cases hft : st.first_time_ever
      · by_cases h2 : openT ≤ now ∧ now ≤ closeT <;>
          simp [loopIter, hc1, hft, h2]
      · by_cases hl : st.logged_in <;> simp [loopIter, hc1, hft, hl]
  · intro st preT openT closeT now n lo fo hf h1 h2
    simp [loopIter, h1, h2, hf]

/-- Claim C9 amended witness: the forced first iteration with `now` past
close performs exactly the authentication events. -/
theorem claim9_amended_forced_login_once_witness :
    (loopIter initState 9 10 11 12 1 cexOracle cexOutcome).2 =
      (authenticateAll 1 cexOracle).2 :=
  (claim9_amended_forced_login_once.1 initState 9 10 11 12 1 cexOracle
    cexOutcome rfl rfl).1

/-- The retry loop `loginRun` makes at most `fuel` attempts. -/
theorem loginRun_length_le (oracle : Nat → Bool) :
    ∀ (fuel i : Nat), (loginRun oracle fuel i).1.length ≤ fuel := by
  intro fuel
  induction fuel with
  | zero => intro i; simp [loginRun]
  | succ f ih =>
    intro i
    by_cases h : oracle i <;> simp [loginRun, h]
    exact ih (i + 1)

/-- Attempt 0 is always made. -/
theorem login_attempt_zero (oracle : Nat → Bool) : 0 ∈ (login oracle).1 := by
  by_cases h : oracle 0 <;> simp [login, loginRun, h]

/-- Claim C8 counterexample: with one configured account whose login
attempts all fail, the code's session pool still contains a session for
that account, while the spec's pool ("sessions only for the accounts whose
authentication succeeded") is empty. -/
theorem claim8_counterexample :
    (authenticateAll 1 (fun _ _ => false)).1 = [0] ∧
    authenticateAllSpec 1 (fun _ _ => false) = [] ∧
    (login (fun _ => false)).2 = false := by
  decide

/-- Claim C8 amended: each account's login is attempted at most 5 times,
the pre-attempt think time escalates with the attempt count, every
configured account is processed (its first attempt happens) even when an
earlier account's budget was exhausted, an exhausted budget is logged —
but the resulting pool holds one session per configured account regardless
of which authentications succeeded. -/
theorem claim8_amended_retries_and_pool :
    (∀ oracle : Nat → Bool, (login oracle).1.length ≤ 5) ∧
    (∀ i j : Nat, i < j → thinkTimeMax i < thinkTimeMax j) ∧
    (∀ (n : Nat) (oracle : Nat → Nat → Bool),
      (authenticateAll n oracle).1 = List.range n) ∧
    (∀ (n : Nat) (oracle : Nat → Nat → Bool) (a : Nat), a < n →
      Event.login a 0 ∈ (authenticateAll n oracle).2) ∧
    (∀ (n : Nat) (oracle : Nat → Nat → Bool) (a : Nat), a < n →
      (login (oracle a)).2 = false →
      Event.loginFailedLog a ∈ (authenticateAll n oracle).2) := by
  refine ⟨fun oracle => loginRun_length_le oracle 5 0, ?_, ?_, ?_, ?_⟩
  · intro i j h
    simp only [thinkTimeMax]
    omega
  · intro n oracle
    rfl
  · intro n oracle a ha
    simp only [authenticateAll, List.mem_flatten, List.mem_map]
    refine ⟨authAccount a (oracle a), ⟨a, by simpa using ha, rfl⟩, ?_⟩
    simp only [authAccount, List.mem_append, List.mem_map]
    exact Or.inl ⟨0, login_attempt_zero (oracle a), rfl⟩
  · intro n oracle a ha hfail
    simp only [authenticateAll, List.mem_flatten, List.mem_map]
    refine ⟨authAccount a (oracle a), ⟨a, by simpa using ha, rfl⟩, ?_⟩
    simp [authAccount, hfail]

/-- Claim C8 amended witness: with one always-failing account, the first
attempt is made and the pool still has one session. -/
theorem claim8_amended_retries_and_pool_witness :
    Event.login 0 0 ∈ (authenticateAll 1 (fun _ _ => false)).2 :=
  claim8_amended_retries_and_pool.2.2.2.1 1 (fun _ _ => false) 0 (by decide)

/-- Every per-session body starts with its fetch call. -/
theorem processSession_events_head (st : Option LastAlert) (sid : Nat)
    (o : SessionOutcome) :
    ∃ tail, (processSession st sid o).events = Event.fetch sid :: tail := by
  rcases o with ⟨fetch, tg, ws⟩
  cases fetch with
  | raise => exact ⟨[], rfl⟩
  | extracted ad =>
    cases ad with
    | none => exact ⟨[], rfl⟩
    | some ad =>
      by_cases h : lastTitleOf st != some ad.title
      · cases tg <;> cases ws <;> simp [processSession, h]
      · simp [processSession, h]

/-- Claim C10: an exception while processing one session ends the whole
MONITORING pass: later sessions contribute nothing (appending them changes
neither the resulting state nor the trace), the session list itself is
untouched by a monitoring iteration, and the next iteration starts again
from the first registered session. -/
theorem claim10_error_aborts_pass :
    (∀ (st : Option LastAlert) (outs extra : List (Nat × SessionOutcome)),
      (monitorPass st outs).2.1 = true →
      monitorPass st (outs ++ extra) = monitorPass st outs) ∧
    (∀ (st : LoopState) (preT openT closeT now : Int) (n : Nat)
        (lo : Nat → Nat → Bool) (fo : Nat → SessionOutcome),
      st.first_time_ever = false → ¬(preT ≤ now ∧ now < openT) →
      (openT ≤ now ∧ now ≤ closeT) →
      (loopIter st preT openT closeT now n lo fo).1.sessions =
        st.sessions) ∧
    (∀ (st : LoopState) (preT openT closeT now : Int) (n : Nat)
        (lo : Nat → Nat → Bool) (fo : Nat → SessionOutcome)
        (s : Nat) (rest : List Nat),
      st.first_time_ever = false → ¬(preT ≤ now ∧ now < openT) →
      (openT ≤ now ∧ now ≤ closeT) → st.sessions = s :: rest →
      ∃ evs, (loopIter st preT openT closeT now n lo fo).2 =
        Event.fetch s :: evs) := by
  refine ⟨?_, ?_, ?_⟩
  · intro st outs extra
    induction outs generalizing st with
    | nil => intro h; simp [monitorPass] at h
    | cons p rest ih =>
      obtain ⟨sid, o⟩ := p
      intro h
      by_cases he : (processSession st sid o).err = true
      · simp only [List.cons_append]
        unfold monitorPass
        simp [he]
      · simp only [List.cons_append]
        unfold monitorPass at h ⊢
        simp only [he, Bool.false_eq_true, if_false] at h ⊢
        rw [ih (processSession st sid o).state h]
  · intro st preT openT closeT now n lo fo hf h1 h2
    simp [loopIter, h1, h2, hf]
  · intro st preT openT closeT now n lo fo s rest hf h1 h2 hs
    obtain ⟨tail, htail⟩ :=
      processSession_events_head st.last_alert_details s (fo s)
    by_cases he : (processSession st.last_alert_details s (fo s)).err = true
    · exact ⟨tail, by simp [loopIter, h1, hf, h2, hs, monitorPass, he, htail]⟩
    · refine ⟨tail ++ (monitorPass
        (processSession st.last_alert_details s (fo s)).state
        (rest.map (fun x => (x, fo x)))).2.2, ?_⟩
      simp [loopIter, h1, hf, h2, hs, monitorPass, he, htail]

/-- Claim C10 witness: with the first session raising in the fetch,
appending a second (healthy) session changes nothing. -/
theorem claim10_error_aborts_pass_witness :
    monitorPass none
        [(0, ⟨FetchRes.raise, true, true⟩),
          (1, ⟨FetchRes.extracted (some ⟨"T", "p", "c", "n"⟩), true, true⟩)] =
      monitorPass none [(0, ⟨FetchRes.raise, true, true⟩)] :=
  claim10_error_aborts_pass.1 none [(0, ⟨FetchRes.raise, true, true⟩)]
    [(1, ⟨FetchRes.extracted (some ⟨"T", "p", "c", "n"⟩), true, true⟩)]
    (by decide)

/-- Shifting the candidate test across the head character of the string:
the regex boundary state for position `i + 1` of `c :: rest` is the
boundary state for position `i` of `rest` with `isWordCh c` as the
character before the string. -/
theorem candAt_cons_succ (prevW : Bool) (c : Char) (rest : List Char)
    (i : Nat) :
    candAt prevW (c :: rest) (i + 1) = candAt (isWordCh c) rest i := by
  cases i with
  | zero =>
    simp [candAt, List.drop_succ_cons, Nat.add_comm 1]
  | succ j =>
    have harith : j + 1 + 1 + upperRunLen (List.drop (j + 1) rest) =
        (j + 1 + upperRunLen (List.drop (j + 1) rest)) + 1 := by omega
    simp [candAt, List.drop_succ_cons, List.getD_cons_succ, harith]

/-- The left-to-right scan of the regex engine agrees with "the first
index whose candidate test succeeds". -/
theorem tickerScan_eq_findSome (s : List Char) : ∀ prevW : Bool,
    tickerScan prevW s = (List.range s.length).findSome? (candAt prevW s) := by
  induction s with
  | nil => intro prevW; rfl
  | cons c rest ih =>
    intro prevW
    rw [List.length_cons, List.range_succ_eq_map, List.findSome?_cons]
    rw [List.findSome?_map]
    have hcomp : (candAt prevW (c :: rest)) ∘ Nat.succ =
        candAt (isWordCh c) rest := by
      funext i
      exact candAt_cons_succ prevW c rest i
    rw [hcomp, ← ih (isWordCh c)]
    by_cases hc : (!prevW && decide (1 ≤ upperRunLen (c :: rest)) &&
        decide (upperRunLen (c :: rest) ≤ 5) &&
        wordBoundaryAfter (List.drop (upperRunLen (c :: rest)) (c :: rest)) &&
        dollarAfterSpaces (List.drop (upperRunLen (c :: rest)) (c :: rest)))
        = true
    · have h1 : tickerScan prevW (c :: rest) =
          some (List.take (upperRunLen (c :: rest)) (c :: rest)) := by
        conv_lhs => unfold tickerScan
        exact if_pos hc
      have h2 : candAt prevW (c :: rest) 0 =
          some (List.take (upperRunLen (c :: rest)) (c :: rest)) := by
        conv_lhs => unfold candAt
        simp only [List.drop_zero, Nat.zero_add, reduceIte]
        exact if_pos hc
      rw [h1, h2]
    · have h1 : tickerScan prevW (c :: rest) = tickerScan (isWordCh c) rest := by
        conv_lhs => unfold tickerScan
        exact if_neg hc
      have h2 : candAt prevW (c :: rest) 0 = none := by
        conv_lhs => unfold candAt
        simp only [List.drop_zero, Nat.zero_add, reduceIte]
        exact if_neg hc
      rw [h1, h2]

/-- Claim C5 counterexample: on the title "2ND $1" the spec's rule ("the
first run of 1–5 uppercase letters followed, after optional whitespace, by
a dollar sign") selects the run "ND", but the code's regex requires a word
boundary before the run ('2' is a word character), finds no match, and
yields the sentinel "-". -/
theorem claim5_counterexample :
    extractTicker "2ND $1" = "-" ∧ extractTickerSpec "2ND $1" = "ND" := by
  decide

/-- Claim C5 amended: the extracted ticker is the first left-to-right
word-boundary-delimited run of 1–5 uppercase letters — preceded and
followed by a non-word character (letters, digits, underscore are word
characters) or the string edge — that is followed, after optional
whitespace, by a dollar sign; sentinel "-" when no such run exists.  The
spec's examples hold. -/
theorem claim5_amended_ticker_extraction :
    (∀ title : String, extractTicker title = extractTickerAmended title) ∧
    extractTicker "Buy AAPL $150" = "AAPL" ∧
    extractTicker "SELL TSLA $700" = "TSLA" ∧
    extractTicker "Update on MSFT" = "-" := by
  refine ⟨fun title => ?_, by decide, by decide, by decide⟩
  unfold extractTicker extractTickerAmended
  rw [tickerScan_eq_findSome]

end HedgeyeScraper
